import Mathlib

/-
Verification of the jork audio core: the WAV encoder, the recording
session state machine (internal/audio/recorder.go), the external-player
playback state machine (audio player), the conversation-log handling of
the app layer (internal/app/app.go, internal/app/commands.go) and the
conversation-context builder of the ai layer (internal/ai/client.go).

Go machine integers are embedded as Nat with explicit reduction modulo
the relevant power of two where the Go code converts to a fixed-width
type; float32 samples are embedded as exact rationals.
-/

namespace Jork

/-- unsigned 16-bit reduction, the effect of a Go uint16 conversion. -/
def u16 (n : Nat) : Nat := n % 65536

/-- unsigned 32-bit reduction, the effect of a Go uint32 conversion. -/
def u32 (n : Nat) : Nat := n % 4294967296

/-- bytes written by binary.LittleEndian.PutUint16 for value n. -/
def le16 (n : Nat) : List Nat := [n % 256, n / 256 % 256]

/-- bytes written by binary.LittleEndian.PutUint32 for value n. -/
def le32 (n : Nat) : List Nat :=
  [n % 256, n / 256 % 256, n / 65536 % 256, n / 16777216 % 256]

/-- Modelled from the spec: the implicit decode contract of the WAV layout.
A reader of the produced bytes interprets two consecutive bytes at offset
off as an unsigned little-endian 16-bit value. -/
def readLE16 (bs : List Nat) (off : Nat) : Nat :=
  bs.getD off 0 + 256 * bs.getD (off + 1) 0

/-- Modelled from the spec: the implicit decode contract of the WAV layout.
A reader of the produced bytes interprets four consecutive bytes at offset
off as an unsigned little-endian 32-bit value. -/
def readLE32 (bs : List Nat) (off : Nat) : Nat :=
  bs.getD off 0 + 256 * bs.getD (off + 1) 0 +
    65536 * bs.getD (off + 2) 0 + 16777216 * bs.getD (off + 3) 0

/-- recorder.go line 167: channels := uint16(r.channels). -/
def wavChannels16 (channels : Nat) : Nat := u16 channels

/-- recorder.go line 168: sampleRate := uint32(audioData.SampleRate). -/
def wavSampleRate32 (rate : Nat) : Nat := u32 rate

/-- recorder.go line 170: byteRate := sampleRate * uint32(channels) *
uint32(bitsPerSample) / 8, computed in uint32 arithmetic with
bitsPerSample = 16. -/
def wavByteRate (rate channels : Nat) : Nat :=
  u32 (u32 (wavSampleRate32 rate * u32 (wavChannels16 channels)) * 16) / 8

/-- recorder.go line 171: blockAlign := channels * bitsPerSample / 8,
computed in uint16 arithmetic with bitsPerSample = 16. -/
def wavBlockAlign (channels : Nat) : Nat :=
  u16 (wavChannels16 channels * 16) / 8

/-- recorder.go line 172: dataSize := uint32(len(audioData.Data) * 2). -/
def wavDataSize (numSamples : Nat) : Nat := u32 (numSamples * 2)

/-- recorder.go line 173: fileSize := uint32(len(header)) + dataSize - 8 in
uint32 arithmetic, with len(header) = 44; the subtraction of 8 is the
two-complement addition of 4294967288. -/
def wavFileSize (numSamples : Nat) : Nat :=
  u32 (u32 (44 + wavDataSize numSamples) + 4294967288)

/-- recorder.go lines 145-181: the 44-byte header, i.e. the byte literal of
lines 145-164 after the six PutUint16/PutUint32 updates of lines 176-181.
Offsets: 0 RIFF, 4 fileSize, 8 WAVE, 12 fmt-space, 16 chunk size 16,
20 PCM tag 1, 22 channels, 24 sample rate, 28 byte rate, 32 block align,
34 bits per sample 16, 36 data, 40 dataSize. -/
def wavHeaderBytes (numSamples rate channels : Nat) : List Nat :=
  [82, 73, 70, 70] ++ le32 (wavFileSize numSamples) ++
  [87, 65, 86, 69] ++
  [102, 109, 116, 32] ++ le32 16 ++ le16 1 ++ le16 (wavChannels16 channels) ++
  le32 (wavSampleRate32 rate) ++ le32 (wavByteRate rate channels) ++
  le16 (wavBlockAlign channels) ++ le16 16 ++
  [100, 97, 116, 97] ++ le32 (wavDataSize numSamples)

/-- truncation toward zero of a rational, as a Go float-to-integer
conversion truncates. -/
def truncTowardZero (q : ℚ) : ℤ := if 0 ≤ q then ⌊q⌋ else ⌈q⌉

/-- two-complement reduction of an integer into the int16 range, the
wrap-around a Go conversion to a narrower integer type performs. -/
def wrapInt16 (z : ℤ) : ℤ := (z + 32768) % 65536 - 32768

/-- recorder.go line 191: intSample := int16(sample * 32767). The sample is
an exact rational standing for the float32 value; the conversion truncates
toward zero and reduces modulo 2^16 into the int16 range (gc semantics for
an out-of-range float-to-int conversion). Rounding of the float32 product
itself is not modelled. -/
def floatToInt16 (s : ℚ) : ℤ := wrapInt16 (truncTowardZero (s * 32767))

/-- bytes written by binary.Write for one little-endian int16 value. -/
def int16Bytes (z : ℤ) : List Nat := le16 (Int.toNat (z % 65536))

/-- recorder.go lines 137-198 (SaveToWAV), as the pure byte production of
the spec WavCodec.Encode: the 44-byte header followed by each sample
converted to a little-endian int16. -/
def saveToWAVBytes (samples : List ℚ) (rate channels : Nat) : List Nat :=
  wavHeaderBytes samples.length rate channels ++
    samples.flatMap (fun s => int16Bytes (floatToInt16 s))

/-- Modelled from the spec: header readers for the declared size fields, at
the offsets of the layout above. -/
def parseFileSize (bs : List Nat) : Nat := readLE32 bs 4

/-- Modelled from the spec: reader of the channel-count field. -/
def parseNumChannels (bs : List Nat) : Nat := readLE16 bs 22

/-- Modelled from the spec: reader of the byte-rate field. -/
def parseByteRate (bs : List Nat) : Nat := readLE32 bs 28

/-- Modelled from the spec: reader of the block-align field. -/
def parseBlockAlign (bs : List Nat) : Nat := readLE16 bs 32

/-- Modelled from the spec: reader of the data-size field. -/
def parseDataSize (bs : List Nat) : Nat := readLE32 bs 40

/-- signed 64-bit two-complement reduction, the wrap-around of Go int64
(time.Duration) arithmetic. -/
def i64 (z : ℤ) : ℤ := (z + 9223372036854775808) % 18446744073709551616 - 9223372036854775808

/-- models.AudioData: the recorded samples, the sample rate, and the
duration as a time.Duration (int64 nanoseconds). -/
structure AudioData where
  data : List ℚ
  sampleRate : Nat
  durationNs : ℤ
deriving DecidableEq, Repr

/-- recorder.go line 107: duration := time.Duration(len(r.buffer)/r.channels)
* time.Second / time.Duration(r.sampleRate). The division count/channels is
Go integer division, the multiplication by time.Second = 10^9 wraps in
int64, and the final division is the truncating int64 division. -/
def recordedDurationNs (bufLen channels rate : Nat) : ℤ :=
  Int.tdiv (i64 ((bufLen / channels : Nat) * 1000000000)) (rate : ℤ)

/-- audio.Recorder: the stream handle presence, the isRecording flag, the
sample buffer and the construction parameters (recorder.go lines 15-22);
the mutex is not modelled, calls are embedded as atomic steps. -/
structure Recorder where
  hasStream : Bool
  isRecording : Bool
  buffer : List ℚ
  sampleRate : Nat
  channels : Nat
deriving DecidableEq, Repr

/-- recorder.go lines 41-85 (StartRecording). The PortAudio device lookup,
stream opening and stream start are external; openFails and startFails
inject their failure. On an active session the call errors out before
touching any field; otherwise the buffer is cleared, the stream is opened
and started, and a start failure resets the isRecording flag. -/
def startRecording (openFails startFails : Bool) (r : Recorder) :
    Recorder × Option String :=
  if r.isRecording then
    (r, some "recording is already in progress")
  else
    let r1 := { r with buffer := [] }
    if openFails then
      (r1, some "failed to open audio stream")
    else
      let r2 := { r1 with hasStream := true, isRecording := true }
      if startFails then
        ({ r2 with isRecording := false }, some "failed to start audio stream")
      else
        (r2, none)

/-- recorder.go lines 128-134 (recordCallback): append the incoming block
to the recording buffer. -/
def recordCallback (r : Recorder) (inputBuffer : List ℚ) : Recorder :=
  { r with buffer := r.buffer ++ inputBuffer }

/-- recorder.go lines 88-118 (StopRecording). The isRecording flag is
cleared first; stopFails and closeFails inject failures of the external
stream Stop and Close calls, after which the function returns an error and
no data. On success the AudioData snapshot carries a copy of the buffer
and the computed duration. -/
def stopRecording (stopFails closeFails : Bool) (r : Recorder) :
    Recorder × Option AudioData × Option String :=
  if !r.isRecording then
    (r, none, some "no recording in progress")
  else
    let r1 := { r with isRecording := false }
    if stopFails then
      (r1, none, some "failed to stop audio stream")
    else if closeFails then
      (r1, none, some "failed to close audio stream")
    else
      (r1, some { data := r1.buffer, sampleRate := r1.sampleRate,
                  durationNs := recordedDurationNs r1.buffer.length r1.channels r1.sampleRate },
       none)

/-- recorder.go lines 121-125 (IsRecording): a synchronized read of the
flag. -/
def Recorder.IsRecording (r : Recorder) : Bool := r.isRecording

/-- a whole recording session: the callback runs once per delivered block,
in order (part of the stream contract; the callback itself is
recordCallback). -/
def runCallbacks (r : Recorder) (chunks : List (List ℚ)) : Recorder :=
  chunks.foldl recordCallback r

/-- an external player process spawned by the playback component, carrying
the executable chosen and the file argument. -/
inductive PlayerCmd where
  | aplayCmd (file : String)
  | paplayCmd (file : String)
  | ffplayCmd (file : String)
  | mpg123Cmd (file : String)
deriving DecidableEq, Repr

/-- the environment the player probes: which executables exec.LookPath
finds, whether the ffmpeg conversion run succeeds, and which files exist
on disk. -/
structure PlayerEnv where
  aplay : Bool
  paplay : Bool
  mpg123 : Bool
  ffplay : Bool
  ffmpeg : Bool
  convertOk : Bool
  fileExists : String → Bool

/-- audio.Player: the isPlaying flag and the running external command; the
RWMutex is not modelled, calls are embedded as atomic steps. -/
structure Player where
  isPlaying : Bool
  currentCmd : Option PlayerCmd
deriving DecidableEq, Repr

/-- stand-in for the random path os.CreateTemp hands to the ffmpeg
conversion of an MP3 file. -/
def tempWavName (filename : String) : String :=
  "jork_converted_" ++ filename ++ ".wav"

/-- player PlayFile (lines 60-108 of the player source): refuse when
already playing, refuse a missing file, then try aplay, then paplay, then
ffplay; with none of the three present fail with the no-player error. On
success the chosen command is recorded and isPlaying is set; the spawned
process itself runs in the background. -/
def playFile (env : PlayerEnv) (filename : String) (p : Player) :
    Player × Option String :=
  if p.isPlaying then
    (p, some "audio is already playing")
  else if !(env.fileExists filename) then
    (p, some ("audio file does not exist: " ++ filename))
  else if env.aplay then
    ({ isPlaying := true, currentCmd := some (PlayerCmd.aplayCmd filename) }, none)
  else if env.paplay then
    ({ isPlaying := true, currentCmd := some (PlayerCmd.paplayCmd filename) }, none)
  else if env.ffplay then
    ({ isPlaying := true, currentCmd := some (PlayerCmd.ffplayCmd filename) }, none)
  else
    (p, some "no suitable audio player found (tried: aplay, paplay, ffplay)")

/-- player playMP3WithFFmpeg (lines 159-181): require ffmpeg, convert the
MP3 into a temporary WAV (convertOk injects a conversion failure), then
play that file through PlayFile. The temporary file exists for the inner
call. -/
def playMP3WithFFmpeg (env : PlayerEnv) (filename : String) (p : Player) :
    Player × Option String :=
  if !env.ffmpeg then
    (p, some "ffmpeg not found, cannot convert MP3")
  else if !env.convertOk then
    (p, some "failed to convert MP3 to WAV")
  else
    playFile
      { env with fileExists := fun g => if g = tempWavName filename then true else env.fileExists g }
      (tempWavName filename) p

/-- player PlayMP3File (lines 111-156): refuse when already playing,
refuse a missing file, then try mpg123, then ffplay; with neither present
but paplay available, fall back to the ffmpeg conversion path; otherwise
fail with the no-MP3-player error. -/
def playMP3File (env : PlayerEnv) (filename : String) (p : Player) :
    Player × Option String :=
  if p.isPlaying then
    (p, some "audio is already playing")
  else if !(env.fileExists filename) then
    (p, some ("audio file does not exist: " ++ filename))
  else if env.mpg123 then
    ({ isPlaying := true, currentCmd := some (PlayerCmd.mpg123Cmd filename) }, none)
  else if env.ffplay then
    ({ isPlaying := true, currentCmd := some (PlayerCmd.ffplayCmd filename) }, none)
  else if env.paplay then
    playMP3WithFFmpeg env filename p
  else
    (p, some "no suitable MP3 player found (tried: mpg123, ffplay, paplay+ffmpeg)")

/-- the deferred cleanup of the monitoring goroutine (player lines 93-99):
when the spawned process exits on its own, the flag and the command are
cleared. No StopPlayback call is involved. -/
def playbackFinished (_p : Player) : Player :=
  { isPlaying := false, currentCmd := none }

/-- player StopPlayback (lines 184-201): refuse when nothing is playing,
kill the process (killFails injects a kill failure, which leaves the state
untouched), then clear the flag and the command. -/
def stopPlayback (killFails : Bool) (p : Player) : Player × Option String :=
  if !p.isPlaying || p.currentCmd = none then
    (p, some "no audio is currently playing")
  else if killFails then
    (p, some "failed to stop playback")
  else
    ({ isPlaying := false, currentCmd := none }, none)

/-- player IsPlaying (lines 204-208): a synchronized read of the flag. -/
def Player.IsPlaying (p : Player) : Bool := p.isPlaying

/-- models.CommunicationMode. -/
inductive CommunicationMode where
  | textToVoice
  | voiceToText
  | textToText
  | voiceToVoice
deriving DecidableEq, BEq, Repr

/-- models.KnowledgeLevel. -/
inductive KnowledgeLevel where
  | child
  | highSchool
  | freshmanUniversity
  | coWorker
deriving DecidableEq, BEq, Repr

/-- models.ConversationEntry; timestamps are abstract Nat ticks. -/
structure ConversationEntry where
  timestamp : Nat
  userInput : String
  aiResponse : String
  mode : CommunicationMode
  knowledgeLevel : KnowledgeLevel
  isVoiceInput : Bool
  isVoiceOutput : Bool
deriving DecidableEq, Repr

/-- models.AppState, the fields the text-turn pipeline touches. -/
structure AppState where
  currentMode : CommunicationMode
  knowledgeLevel : KnowledgeLevel
  isRecording : Bool
  isPlaying : Bool
  isProcessing : Bool
  lastMessage : String
  lastResponse : String
  conversationLog : List ConversationEntry
deriving DecidableEq, Repr

/-- app.go lines 113-121: the ConversationEntry built for a successful
response. -/
def mkEntry (now : Nat) (input response : String) (st : AppState) : ConversationEntry :=
  { timestamp := now
    userInput := input
    aiResponse := response
    mode := st.currentMode
    knowledgeLevel := st.knowledgeLevel
    isVoiceInput := st.currentMode == CommunicationMode.voiceToText ||
      st.currentMode == CommunicationMode.voiceToVoice
    isVoiceOutput := st.currentMode == CommunicationMode.textToVoice ||
      st.currentMode == CommunicationMode.voiceToVoice }

/-- app.go lines 123-128: append the entry, then keep only the last
MaxConversationHistory entries (the slice log[len-max:]). -/
def appendBounded (maxHistory : Nat) (log : List ConversationEntry)
    (entry : ConversationEntry) : List ConversationEntry :=
  let log1 := log ++ [entry]
  if log1.length > maxHistory then log1.drop (log1.length - maxHistory) else log1

/-- app.go lines 96-134 (ProcessTextInput). The Claude call is the external
generation collaborator; genResult is its outcome (none = error). On
failure the state is returned unchanged (IsProcessing is set and reset
around the call, netting out) with an empty response and the error; on
success the entry is logged with FIFO truncation and the last
message/response fields are updated. Result: new state, response, error. -/
def processTextInput (maxHistory : Nat) (genResult : Option String) (now : Nat)
    (input : String) (st : AppState) : AppState × Option String × Option String :=
  match genResult with
  | none => (st, none, some "failed to generate response")
  | some response =>
      let entry := mkEntry now input response st
      ({ st with
          conversationLog := appendBounded maxHistory st.conversationLog entry
          lastMessage := input
          lastResponse := response },
       some response, none)

/-- app.go lines 159-172 (GenerateVoiceResponse): the TTS collaborator
writes an MP3 file; ttsOk is its outcome. The application state is
returned as it was (IsProcessing nets out); on success the generated file
name is handed back. -/
def generateVoiceResponse (ttsOk : Bool) (now : Nat) (_text : String)
    (st : AppState) : AppState × Option String × Option String :=
  if ttsOk then
    (st, some ("response_" ++ toString now ++ ".mp3"), none)
  else
    (st, none, some "failed to generate speech")

/-- app.go lines 204-233 (PlayAudio): refuse when the app already plays,
dispatch by extension to the MP3 or WAV player, and on success set the
IsPlaying flag (the monitoring goroutine that later clears it is the
separate playbackFinished step). -/
def appPlayAudio (env : PlayerEnv) (filename : String) (st : AppState)
    (p : Player) : AppState × Player × Option String :=
  if st.isPlaying then
    (st, p, some "already playing audio")
  else if filename.endsWith ".mp3" then
    match playMP3File env filename p with
    | (p1, none) => ({ st with isPlaying := true }, p1, none)
    | (p1, some e) => (st, p1, some ("failed to play MP3: " ++ e))
  else if filename.endsWith ".wav" then
    match playFile env filename p with
    | (p1, none) => ({ st with isPlaying := true }, p1, none)
    | (p1, some e) => (st, p1, some ("failed to play WAV: " ++ e))
  else
    (st, p, some ("unsupported audio format: " ++ filename))

/-- commands.go lines 60-83 (ProcessTextCmd). healthOk is the outcome of
the HealthCheck gate (its body is not part of the core); after a
successful text turn in a voice-output mode the response is synthesized
and, when synthesis succeeds, played in the background with the playback
error discarded; a synthesis failure is discarded too. The returned pair
mirrors ProcessingCompletedMsg: the response and the error of the text
turn. -/
def processTextCmd (maxHistory : Nat) (healthOk : Bool) (genResult : Option String)
    (ttsOk : Bool) (env : PlayerEnv) (now : Nat) (input : String)
    (st : AppState) (p : Player) :
    AppState × Player × String × Option String :=
  if !healthOk then
    (st, p, "", some "Health check failed")
  else
    match processTextInput maxHistory genResult now input st with
    | (st1, none, err) => (st1, p, "", err)
    | (st1, some response, _) =>
        if st1.currentMode == CommunicationMode.textToVoice ||
            st1.currentMode == CommunicationMode.voiceToVoice then
          match generateVoiceResponse ttsOk now response st1 with
          | (st2, some audioFile, _) =>
              match appPlayAudio env audioFile st2 p with
              | (st3, p3, _) => (st3, p3, response, none)
          | (st2, none, _) => (st2, p, response, none)
        else
          (st1, p, response, none)

/-- models.Message, the chat messages sent to the generation API. -/
structure Message where
  role : String
  content : String
deriving DecidableEq, Repr

/-- prompt source lines 67-95 (GetConversationContext): nil on an empty
history, otherwise the last maxEntries entries expanded in order into a
user message and an assistant message each. -/
def getConversationContext (entries : List ConversationEntry) (maxEntries : Nat) :
    List Message :=
  if entries.length = 0 then
    []
  else
    let start := if entries.length > maxEntries then entries.length - maxEntries else 0
    (entries.drop start).flatMap
      (fun e => [{ role := "user", content := e.userInput },
                 { role := "assistant", content := e.aiResponse }])

/-- client.go line 49: GenerateResponse builds its context with the
hardcoded cap of 10 entries. -/
def generateResponseContext (history : List ConversationEntry) : List Message :=
  getConversationContext history 10

/-- concrete environment: every external tool present, every file on
disk. -/
def envAllTools : PlayerEnv :=
  { aplay := true, paplay := true, mpg123 := true, ffplay := true,
    ffmpeg := true, convertOk := true, fileExists := fun _ => true }

/-- concrete environment: only ffplay installed. -/
def envFfplayOnly : PlayerEnv :=
  { aplay := false, paplay := false, mpg123 := false, ffplay := true,
    ffmpeg := false, convertOk := true, fileExists := fun _ => true }

/-- concrete idle player. -/
def playerIdle : Player := { isPlaying := false, currentCmd := none }

/-- concrete player with an active playback. -/
def playerBusy : Player :=
  { isPlaying := true, currentCmd := some (PlayerCmd.aplayCmd "busy.wav") }

/-- concrete idle recorder, 16 kHz mono. -/
def recorderIdle : Recorder :=
  { hasStream := false, isRecording := false, buffer := [], sampleRate := 16000, channels := 1 }

/-- concrete recorder with an active session holding one sample. -/
def recorderBusy : Recorder :=
  { hasStream := true, isRecording := true, buffer := [1/2], sampleRate := 16000, channels := 1 }

/-- concrete first conversation entry. -/
def entryA : ConversationEntry :=
  { timestamp := 1, userInput := "u1", aiResponse := "r1",
    mode := CommunicationMode.textToText, knowledgeLevel := KnowledgeLevel.coWorker,
    isVoiceInput := false, isVoiceOutput := false }

/-- concrete second conversation entry. -/
def entryB : ConversationEntry :=
  { timestamp := 2, userInput := "u2", aiResponse := "r2",
    mode := CommunicationMode.textToText, knowledgeLevel := KnowledgeLevel.coWorker,
    isVoiceInput := false, isVoiceOutput := false }

/-- concrete application state holding two logged entries, in text-to-text
mode. -/
def stTwo : AppState :=
  { currentMode := CommunicationMode.textToText, knowledgeLevel := KnowledgeLevel.coWorker,
    isRecording := false, isPlaying := false, isProcessing := false,
    lastMessage := "u2", lastResponse := "r2", conversationLog := [entryA, entryB] }

/-- concrete application state in a voice-output mode with one logged
entry. -/
def stVoice : AppState :=
  { currentMode := CommunicationMode.textToVoice, knowledgeLevel := KnowledgeLevel.coWorker,
    isRecording := false, isPlaying := false, isProcessing := false,
    lastMessage := "u1", lastResponse := "r1", conversationLog := [entryA] }

lemma length_pairExpand (l : List ConversationEntry) :
    (l.flatMap (fun e => [({ role := "user", content := e.userInput } : Message),
      { role := "assistant", content := e.aiResponse }])).length = 2 * l.length := by
  induction l with
  | nil => simp
  | cons a t ih =>
      simp only [List.flatMap_cons, List.length_append, List.length_cons,
        List.length_nil, ih]
      omega

lemma runCallbacks_eq (r : Recorder) (chunks : List (List ℚ)) :
    runCallbacks r chunks = { r with buffer := r.buffer ++ chunks.flatten } := by
  induction chunks generalizing r with
  | nil => simp [runCallbacks]
  | cons c t ih =>
      have : runCallbacks r (c :: t) = runCallbacks (recordCallback r c) t := rfl
      rw [this, ih]
      simp [recordCallback]

lemma i64_ofNat (n : Nat) (h : n < 9223372036854775808) : i64 (n : ℤ) = (n : ℤ) := by
  unfold i64; omega

lemma tdiv_natCast (a b : Nat) : Int.tdiv (a : ℤ) (b : ℤ) = ((a / b : Nat) : ℤ) := rfl

lemma durationNs_bounds (N C R : Nat) (hC : 0 < C) (hR : 0 < R) :
    (N / C * 1000000000 / R) * (C * R) ≤ N * 1000000000 ∧
    N * 1000000000 <
      (N / C * 1000000000 / R) * (C * R) + C * 1000000000 + C * R := by
  have e1 : C * (N / C) + N % C = N := Nat.div_add_mod N C
  have l1 : N % C < C := Nat.mod_lt _ hC
  have e2 : R * (N / C * 1000000000 / R) + (N / C * 1000000000) % R
      = N / C * 1000000000 := Nat.div_add_mod _ R
  have l2 : (N / C * 1000000000) % R < R := Nat.mod_lt _ hR
  constructor
  · calc (N / C * 1000000000 / R) * (C * R)
        = (R * (N / C * 1000000000 / R)) * C := by ring
      _ ≤ (N / C * 1000000000) * C := mul_le_mul_right' (Nat.le.intro e2) C
      _ = (C * (N / C)) * 1000000000 := by ring
      _ ≤ N * 1000000000 := mul_le_mul_right' (Nat.le.intro e1) _
  · have hx : C * ((N / C * 1000000000) % R) < C * R := (mul_lt_mul_left hC).mpr l2
    have hy : (N % C) * 1000000000 < C * 1000000000 :=
      (mul_lt_mul_right (by norm_num)).mpr l1
    have key : N * 1000000000 =
        (N / C * 1000000000 / R) * (C * R) + C * ((N / C * 1000000000) % R)
          + (N % C) * 1000000000 := by
      calc N * 1000000000 = (C * (N / C) + N % C) * 1000000000 := by rw [e1]
        _ = C * (N / C * 1000000000) + (N % C) * 1000000000 := by ring
        _ = C * (R * (N / C * 1000000000 / R) + (N / C * 1000000000) % R)
              + (N % C) * 1000000000 := by rw [e2]
        _ = (N / C * 1000000000 / R) * (C * R) + C * ((N / C * 1000000000) % R)
              + (N % C) * 1000000000 := by ring
    linarith

lemma wavHeaderBytes_length (n rate ch : Nat) :
    (wavHeaderBytes n rate ch).length = 44 := rfl

lemma readLE32_append (bs rest : List Nat) (off : Nat) (h : off + 4 ≤ bs.length) :
    readLE32 (bs ++ rest) off = readLE32 bs off := by
  unfold readLE32
  rw [List.getD_append _ _ _ _ (by omega), List.getD_append _ _ _ _ (by omega),
    List.getD_append _ _ _ _ (by omega), List.getD_append _ _ _ _ (by omega)]

lemma readLE16_append (bs rest : List Nat) (off : Nat) (h : off + 2 ≤ bs.length) :
    readLE16 (bs ++ rest) off = readLE16 bs off := by
  unfold readLE16
  rw [List.getD_append _ _ _ _ (by omega), List.getD_append _ _ _ _ (by omega)]

lemma wavHeaderBytes_flat (n rate ch : Nat) :
    wavHeaderBytes n rate ch =
      82 :: 73 :: 70 :: 70 ::
      wavFileSize n % 256 :: wavFileSize n / 256 % 256 ::
      wavFileSize n / 65536 % 256 :: wavFileSize n / 16777216 % 256 ::
      87 :: 65 :: 86 :: 69 ::
      102 :: 109 :: 116 :: 32 ::
      16 % 256 :: 16 / 256 % 256 :: 16 / 65536 % 256 :: 16 / 16777216 % 256 ::
      1 % 256 :: 1 / 256 % 256 ::
      wavChannels16 ch % 256 :: wavChannels16 ch / 256 % 256 ::
      wavSampleRate32 rate % 256 :: wavSampleRate32 rate / 256 % 256 ::
      wavSampleRate32 rate / 65536 % 256 :: wavSampleRate32 rate / 16777216 % 256 ::
      wavByteRate rate ch % 256 :: wavByteRate rate ch / 256 % 256 ::
      wavByteRate rate ch / 65536 % 256 :: wavByteRate rate ch / 16777216 % 256 ::
      wavBlockAlign ch % 256 :: wavBlockAlign ch / 256 % 256 ::
      16 % 256 :: 16 / 256 % 256 ::
      100 :: 97 :: 116 :: 97 ::
      wavDataSize n % 256 :: wavDataSize n / 256 % 256 ::
      wavDataSize n / 65536 % 256 :: wavDataSize n / 16777216 % 256 :: [] := by
  simp only [wavHeaderBytes, le32, le16, List.cons_append, List.nil_append]

lemma readback_fileSize (FS BR BA DS SR CH : Nat) (hfs : FS < 4294967296) :
    readLE32
      (82 :: 73 :: 70 :: 70 ::
       FS % 256 :: FS / 256 % 256 :: FS / 65536 % 256 :: FS / 16777216 % 256 ::
       87 :: 65 :: 86 :: 69 :: 102 :: 109 :: 116 :: 32 ::
       16 % 256 :: 16 / 256 % 256 :: 16 / 65536 % 256 :: 16 / 16777216 % 256 ::
       1 % 256 :: 1 / 256 % 256 ::
       CH % 256 :: CH / 256 % 256 ::
       SR % 256 :: SR / 256 % 256 :: SR / 65536 % 256 :: SR / 16777216 % 256 ::
       BR % 256 :: BR / 256 % 256 :: BR / 65536 % 256 :: BR / 16777216 % 256 ::
       BA % 256 :: BA / 256 % 256 ::
       16 % 256 :: 16 / 256 % 256 ::
       100 :: 97 :: 116 :: 97 ::
       DS % 256 :: DS / 256 % 256 :: DS / 65536 % 256 :: DS / 16777216 % 256 :: []) 4
      = FS := by
  show FS % 256 + 256 * (FS / 256 % 256) + 65536 * (FS / 65536 % 256)
      + 16777216 * (FS / 16777216 % 256) = FS
  omega

lemma readback_byteRate (FS BR BA DS SR CH : Nat) (hbr : BR < 4294967296) :
    readLE32
      (82 :: 73 :: 70 :: 70 ::
       FS % 256 :: FS / 256 % 256 :: FS / 65536 % 256 :: FS / 16777216 % 256 ::
       87 :: 65 :: 86 :: 69 :: 102 :: 109 :: 116 :: 32 ::
       16 % 256 :: 16 / 256 % 256 :: 16 / 65536 % 256 :: 16 / 16777216 % 256 ::
       1 % 256 :: 1 / 256 % 256 ::
       CH % 256 :: CH / 256 % 256 ::
       SR % 256 :: SR / 256 % 256 :: SR / 65536 % 256 :: SR / 16777216 % 256 ::
       BR % 256 :: BR / 256 % 256 :: BR / 65536 % 256 :: BR / 16777216 % 256 ::
       BA % 256 :: BA / 256 % 256 ::
       16 % 256 :: 16 / 256 % 256 ::
       100 :: 97 :: 116 :: 97 ::
       DS % 256 :: DS / 256 % 256 :: DS / 65536 % 256 :: DS / 16777216 % 256 :: []) 28
      = BR := by
  show BR % 256 + 256 * (BR / 256 % 256) + 65536 * (BR / 65536 % 256)
      + 16777216 * (BR / 16777216 % 256) = BR
  omega

lemma readback_blockAlign (FS BR BA DS SR CH : Nat) (hba : BA < 65536) :
    readLE16
      (82 :: 73 :: 70 :: 70 ::
       FS % 256 :: FS / 256 % 256 :: FS / 65536 % 256 :: FS / 16777216 % 256 ::
       87 :: 65 :: 86 :: 69 :: 102 :: 109 :: 116 :: 32 ::
       16 % 256 :: 16 / 256 % 256 :: 16 / 65536 % 256 :: 16 / 16777216 % 256 ::
       1 % 256 :: 1 / 256 % 256 ::
       CH % 256 :: CH / 256 % 256 ::
       SR % 256 :: SR / 256 % 256 :: SR / 65536 % 256 :: SR / 16777216 % 256 ::
       BR % 256 :: BR / 256 % 256 :: BR / 65536 % 256 :: BR / 16777216 % 256 ::
       BA % 256 :: BA / 256 % 256 ::
       16 % 256 :: 16 / 256 % 256 ::
       100 :: 97 :: 116 :: 97 ::
       DS % 256 :: DS / 256 % 256 :: DS / 65536 % 256 :: DS / 16777216 % 256 :: []) 32
      = BA := by
  show BA % 256 + 256 * (BA / 256 % 256) = BA
  omega

lemma readback_dataSize (FS BR BA DS SR CH : Nat) (hds : DS < 4294967296) :
    readLE32
      (82 :: 73 :: 70 :: 70 ::
       FS % 256 :: FS / 256 % 256 :: FS / 65536 % 256 :: FS / 16777216 % 256 ::
       87 :: 65 :: 86 :: 69 :: 102 :: 109 :: 116 :: 32 ::
       16 % 256 :: 16 / 256 % 256 :: 16 / 65536 % 256 :: 16 / 16777216 % 256 ::
       1 % 256 :: 1 / 256 % 256 ::
       CH % 256 :: CH / 256 % 256 ::
       SR % 256 :: SR / 256 % 256 :: SR / 65536 % 256 :: SR / 16777216 % 256 ::
       BR % 256 :: BR / 256 % 256 :: BR / 65536 % 256 :: BR / 16777216 % 256 ::
       BA % 256 :: BA / 256 % 256 ::
       16 % 256 :: 16 / 256 % 256 ::
       100 :: 97 :: 116 :: 97 ::
       DS % 256 :: DS / 256 % 256 :: DS / 65536 % 256 :: DS / 16777216 % 256 :: []) 40
      = DS := by
  show DS % 256 + 256 * (DS / 256 % 256) + 65536 * (DS / 65536 % 256)
      + 16777216 * (DS / 16777216 % 256) = DS
  omega

lemma parse_header_fields (n rate ch : Nat) :
    parseFileSize (wavHeaderBytes n rate ch) = wavFileSize n ∧
    parseByteRate (wavHeaderBytes n rate ch) = wavByteRate rate ch ∧
    parseBlockAlign (wavHeaderBytes n rate ch) = wavBlockAlign ch ∧
    parseDataSize (wavHeaderBytes n rate ch) = wavDataSize n := by
  have hfs : wavFileSize n < 4294967296 := by unfold wavFileSize u32; omega
  have hbr : wavByteRate rate ch < 4294967296 := by unfold wavByteRate u32; omega
  have hba : wavBlockAlign ch < 65536 := by unfold wavBlockAlign u16; omega
  have hds : wavDataSize n < 4294967296 := by unfold wavDataSize u32; omega
  unfold parseFileSize parseByteRate parseBlockAlign parseDataSize
  rw [wavHeaderBytes_flat]
  generalize hFS : wavFileSize n = FS
  generalize hBR : wavByteRate rate ch = BR
  generalize hBA : wavBlockAlign ch = BA
  generalize hDS : wavDataSize n = DS
  generalize wavSampleRate32 rate = SR
  generalize wavChannels16 ch = CH
  rw [hFS] at hfs
  rw [hBR] at hbr
  rw [hBA] at hba
  rw [hDS] at hds
  exact ⟨readback_fileSize FS BR BA DS SR CH hfs,
    readback_byteRate FS BR BA DS SR CH hbr,
    readback_blockAlign FS BR BA DS SR CH hba,
    readback_dataSize FS BR BA DS SR CH hds⟩

lemma parse_saveToWAV (samples : List ℚ) (rate ch : Nat) :
    parseFileSize (saveToWAVBytes samples rate ch) = wavFileSize samples.length ∧
    parseByteRate (saveToWAVBytes samples rate ch) = wavByteRate rate ch ∧
    parseBlockAlign (saveToWAVBytes samples rate ch) = wavBlockAlign ch ∧
    parseDataSize (saveToWAVBytes samples rate ch) = wavDataSize samples.length := by
  have h44 := wavHeaderBytes_length samples.length rate ch
  obtain ⟨e1, e2, e3, e4⟩ := parse_header_fields samples.length rate ch
  unfold saveToWAVBytes parseFileSize parseByteRate parseBlockAlign parseDataSize
  rw [readLE32_append _ _ _ (by omega), readLE32_append _ _ _ (by omega),
    readLE16_append _ _ _ (by omega), readLE32_append _ _ _ (by omega)]
  exact ⟨e1, e2, e3, e4⟩

/-- C1 counterexample: the size fields are 32-bit; at 2^31 samples the
data-size field wraps to 0 and dataSize/2 does not recover the sample
count, refuting the claim as stated for every sample count. -/
theorem wav_header_claim_false :
    parseDataSize (saveToWAVBytes (List.replicate 2147483648 (0 : ℚ)) 16000 1) / 2
      ≠ 2147483648 := by
  have e := (parse_saveToWAV (List.replicate 2147483648 (0 : ℚ)) 16000 1).2.2.2
  rw [e, List.length_replicate]
  unfold wavDataSize u32
  norm_num

/-- C1 amended: whenever the declared quantities fit the header's integer
fields (2N + 36 below 2^32, rate * channels * 16 below 2^32 and
channels * 16 below 2^16, which hold for every realistic audio
configuration), the produced 44-byte header declares fileSize =
44 + 2N - 8, byteRate = rate * channels * 2, blockAlign = channels * 2 and
dataSize = 2N, and dataSize / 2 recovers N exactly. -/
theorem wav_header_fields (samples : List ℚ) (rate channels : Nat)
    (hN : 2 * samples.length + 36 < 4294967296)
    (hBR : rate * channels * 16 < 4294967296)
    (hBA : channels * 16 < 65536) :
    parseFileSize (saveToWAVBytes samples rate channels) = 44 + 2 * samples.length - 8 ∧
    parseByteRate (saveToWAVBytes samples rate channels) = rate * channels * 2 ∧
    parseBlockAlign (saveToWAVBytes samples rate channels) = channels * 2 ∧
    parseDataSize (saveToWAVBytes samples rate channels) = 2 * samples.length ∧
    parseDataSize (saveToWAVBytes samples rate channels) / 2 = samples.length := by
  obtain ⟨e1, e2, e3, e4⟩ := parse_saveToWAV samples rate channels
  have hds : wavDataSize samples.length = 2 * samples.length := by
    unfold wavDataSize u32; omega
  refine ⟨?_, ?_, ?_, ?_, ?_⟩
  · rw [e1]; unfold wavFileSize wavDataSize u32; omega
  · rw [e2]; unfold wavByteRate wavSampleRate32 wavChannels16 u32 u16
    by_cases hch : channels = 0
    · subst hch; simp
    · have h1 : 1 ≤ channels := Nat.one_le_iff_ne_zero.mpr hch
      have hrc : rate * channels < 4294967296 := by nlinarith
      have hr : rate < 4294967296 := by nlinarith
      have hc : channels < 65536 := by omega
      rw [Nat.mod_eq_of_lt hr, Nat.mod_eq_of_lt hc,
        Nat.mod_eq_of_lt (lt_trans hc (by norm_num)),
        Nat.mod_eq_of_lt hrc, Nat.mod_eq_of_lt hBR]
      omega
  · rw [e3]; unfold wavBlockAlign wavChannels16 u16
    have hc : channels < 65536 := by omega
    rw [Nat.mod_eq_of_lt hc, Nat.mod_eq_of_lt hBA]
    omega
  · rw [e4]; exact hds
  · rw [e4, hds]; omega

theorem wav_header_fields_witness :
    parseFileSize (saveToWAVBytes [(1:ℚ)/2, -1/2, 0] 16000 1)
        = 44 + 2 * [(1:ℚ)/2, -1/2, 0].length - 8 ∧
    parseByteRate (saveToWAVBytes [(1:ℚ)/2, -1/2, 0] 16000 1) = 16000 * 1 * 2 ∧
    parseBlockAlign (saveToWAVBytes [(1:ℚ)/2, -1/2, 0] 16000 1) = 1 * 2 ∧
    parseDataSize (saveToWAVBytes [(1:ℚ)/2, -1/2, 0] 16000 1)
        = 2 * [(1:ℚ)/2, -1/2, 0].length ∧
    parseDataSize (saveToWAVBytes [(1:ℚ)/2, -1/2, 0] 16000 1) / 2
        = [(1:ℚ)/2, -1/2, 0].length :=
  wav_header_fields [(1:ℚ)/2, -1/2, 0] 16000 1 (by norm_num) (by norm_num) (by norm_num)

/-- C8: every float sample in [-1, 1] is linearly scaled by 32767 and
truncated toward zero into an int16 with no wrap-around on that range; an
out-of-range sample such as 1.5 is not clamped before the conversion: it
wraps to -16386 rather than saturating at 32767. -/
theorem float_sample_conversion :
    (∀ s : ℚ, -1 ≤ s → s ≤ 1 → floatToInt16 s = truncTowardZero (s * 32767)) ∧
    floatToInt16 (3 / 2) = -16386 ∧
    floatToInt16 (3 / 2) ≠ 32767 := by
  have hwrap : floatToInt16 (3 / 2) = -16386 := by
    unfold floatToInt16 truncTowardZero wrapInt16
    rw [if_pos (by norm_num : (0:ℚ) ≤ 3 / 2 * 32767)]
    have hfl : ⌊(3 / 2 : ℚ) * 32767⌋ = 49150 := by norm_num
    rw [hfl]
    decide
  refine ⟨?_, hwrap, by rw [hwrap]; decide⟩
  intro s h1 h2
  unfold floatToInt16 wrapInt16
  have hub : truncTowardZero (s * 32767) ≤ 32767 := by
    unfold truncTowardZero
    split_ifs with hq
    · have hle : s * 32767 ≤ (32767:ℚ) := by nlinarith
      calc ⌊s * 32767⌋ ≤ ⌊(32767:ℚ)⌋ := Int.floor_mono hle
        _ = 32767 := by norm_num
    · push_neg at hq
      calc ⌈s * 32767⌉ ≤ 0 := Int.ceil_le.mpr (by push_cast; linarith)
        _ ≤ 32767 := by norm_num
  have hlb : -32767 ≤ truncTowardZero (s * 32767) := by
    unfold truncTowardZero
    split_ifs with hq
    · calc (-32767 : ℤ) ≤ 0 := by norm_num
        _ ≤ ⌊s * 32767⌋ := Int.le_floor.mpr (by push_cast; linarith)
    · have hge : (-32767:ℚ) ≤ s * 32767 := by nlinarith
      have hcl := Int.le_ceil (s * 32767)
      exact_mod_cast hge.trans hcl
  omega

theorem float_sample_conversion_witness :
    floatToInt16 (1 / 2) = truncTowardZero ((1 / 2 : ℚ) * 32767) :=
  float_sample_conversion.1 (1 / 2) (by norm_num) (by norm_num)

/-- C2: for every recording session consisting of a start, any sequence of
callback-delivered sample blocks and a stop, the returned AudioData holds
exactly the appended samples (count equal to the total appended), and its
duration is the buffer length over channels over sample rate, computed in
integer nanoseconds, which approximates samples/channels/rate with an
error below one sample frame plus one nanosecond: the stated bounds pin
durationNs * channels * rate into (N * 10^9 - channels * 10^9 -
channels * rate, N * 10^9]. -/
theorem recorder_roundtrip (r : Recorder) (chunks : List (List ℚ))
    (hIdle : r.isRecording = false) (hC : 0 < r.channels) (hR : 0 < r.sampleRate)
    (hRange : (chunks.map List.length).sum / r.channels * 1000000000
      < 9223372036854775808) :
    ((stopRecording false false (runCallbacks (startRecording false false r).1 chunks)).2.1.map
        (fun ad => ad.data.length)) = some ((chunks.map List.length).sum) ∧
    ((stopRecording false false (runCallbacks (startRecording false false r).1 chunks)).2.1.map
        AudioData.durationNs)
      = some (((chunks.map List.length).sum / r.channels * 1000000000 / r.sampleRate : Nat) : ℤ) ∧
    ((chunks.map List.length).sum / r.channels * 1000000000 / r.sampleRate)
        * (r.channels * r.sampleRate)
      ≤ (chunks.map List.length).sum * 1000000000 ∧
    (chunks.map List.length).sum * 1000000000 <
      ((chunks.map List.length).sum / r.channels * 1000000000 / r.sampleRate)
          * (r.channels * r.sampleRate)
        + r.channels * 1000000000 + r.channels * r.sampleRate := by
  have hstart : (startRecording false false r).1
      = { r with hasStream := true, isRecording := true, buffer := [] } := by
    simp [startRecording, hIdle]
  have hrun : runCallbacks (startRecording false false r).1 chunks
      = { r with hasStream := true, isRecording := true, buffer := chunks.flatten } := by
    rw [hstart, runCallbacks_eq]
    rfl
  have hlen : chunks.flatten.length = (chunks.map List.length).sum :=
    List.length_flatten chunks
  rw [hrun]
  refine ⟨by simp [stopRecording, hlen], ?_,
    (durationNs_bounds _ _ _ hC hR).1, (durationNs_bounds _ _ _ hC hR).2⟩
  simp only [stopRecording, Bool.not_true, Bool.false_eq_true, if_false,
    Option.map_some]
  simp only [recordedDurationNs, hlen]
  have hcast : (((chunks.map List.length).sum / r.channels : Nat) : ℤ) * 1000000000
      = (((chunks.map List.length).sum / r.channels * 1000000000 : Nat) : ℤ) := by
    push_cast
    ring
  rw [hcast, i64_ofNat _ hRange, tdiv_natCast]
  rfl

theorem recorder_roundtrip_witness :
    ((stopRecording false false
        (runCallbacks (startRecording false false recorderIdle).1 [[1/2, 1/2], [0]])).2.1.map
        (fun ad => ad.data.length)) = some (([[(1:ℚ)/2, 1/2], [0]].map List.length).sum) ∧
    ((stopRecording false false
        (runCallbacks (startRecording false false recorderIdle).1 [[1/2, 1/2], [0]])).2.1.map
        AudioData.durationNs)
      = some ((([[(1:ℚ)/2, 1/2], [0]].map List.length).sum / recorderIdle.channels
          * 1000000000 / recorderIdle.sampleRate : Nat) : ℤ) ∧
    (([[(1:ℚ)/2, 1/2], [0]].map List.length).sum / recorderIdle.channels * 1000000000
          / recorderIdle.sampleRate) * (recorderIdle.channels * recorderIdle.sampleRate)
      ≤ (([[(1:ℚ)/2, 1/2], [0]].map List.length).sum) * 1000000000 ∧
    (([[(1:ℚ)/2, 1/2], [0]].map List.length).sum) * 1000000000 <
      (([[(1:ℚ)/2, 1/2], [0]].map List.length).sum / recorderIdle.channels * 1000000000
          / recorderIdle.sampleRate) * (recorderIdle.channels * recorderIdle.sampleRate)
        + recorderIdle.channels * 1000000000 + recorderIdle.channels * recorderIdle.sampleRate :=
  recorder_roundtrip recorderIdle [[1/2, 1/2], [0]] rfl (by norm_num [recorderIdle])
    (by norm_num [recorderIdle]) (by norm_num [recorderIdle])

/-- C5: StartRecording on an already-active session fails with the
already-in-progress error and leaves the whole recorder state (flag,
buffer, stream, parameters) untouched, whatever the external stream
operations would have done. -/
theorem start_recording_already_active (openFails startFails : Bool) (r : Recorder)
    (h : r.isRecording = true) :
    startRecording openFails startFails r = (r, some "recording is already in progress") := by
  simp [startRecording, h]

theorem start_recording_already_active_witness :
    startRecording false false recorderBusy
      = (recorderBusy, some "recording is already in progress") :=
  start_recording_already_active false false recorderBusy rfl

/-- C9: when StopRecording is called on an active session and the stream
stop or close fails, the call returns an error and no audio data, yet the
session is already marked ended, so IsRecording reports false
afterwards. -/
theorem stop_recording_error_marks_ended (stopFails closeFails : Bool) (r : Recorder)
    (hActive : r.isRecording = true) (hErr : stopFails = true ∨ closeFails = true) :
    (stopRecording stopFails closeFails r).1.IsRecording = false ∧
    (stopRecording stopFails closeFails r).2.1 = none ∧
    ((stopRecording stopFails closeFails r).2.2).isSome = true := by
  cases stopFails <;> cases closeFails <;>
    simp_all [stopRecording, Recorder.IsRecording]

theorem stop_recording_error_marks_ended_witness :
    (stopRecording true false recorderBusy).1.IsRecording = false ∧
    (stopRecording true false recorderBusy).2.1 = none ∧
    ((stopRecording true false recorderBusy).2.2).isSome = true :=
  stop_recording_error_marks_ended true false recorderBusy rfl (Or.inl rfl)

/-- C6: PlayFile on a player that is already playing fails with the
already-playing error and starts no new process (the state is returned
unchanged); and when a successfully started playback ends because the
spawned process exits on its own, the monitoring cleanup alone makes
IsPlaying false, with no StopPlayback call involved. -/
theorem play_file_busy_then_finish (env : PlayerEnv) (filename : String) (p : Player) :
    (p.isPlaying = true → playFile env filename p = (p, some "audio is already playing")) ∧
    ((playFile env filename p).2 = none →
      ((playFile env filename p).1).IsPlaying = true ∧
      (playbackFinished ((playFile env filename p).1)).IsPlaying = false) := by
  constructor
  · intro h; simp [playFile, h]
  · intro h
    refine ⟨?_, by simp [playbackFinished, Player.IsPlaying]⟩
    unfold playFile at h ⊢
    split_ifs at h ⊢ <;> simp_all [Player.IsPlaying]

theorem play_file_busy_then_finish_witness :
    playFile envAllTools "clip.wav" playerBusy
        = (playerBusy, some "audio is already playing") ∧
    (playbackFinished ((playFile envAllTools "clip.wav" playerIdle).1)).IsPlaying = false :=
  ⟨(play_file_busy_then_finish envAllTools "clip.wav" playerBusy).1 rfl,
   ((play_file_busy_then_finish envAllTools "clip.wav" playerIdle).2 rfl).2⟩

/-- C7 counterexample: with aplay and paplay absent but ffplay installed,
PlayFile on a WAV file does not fail with the no-player error as the claim
states for the chain restricted to aplay and paplay: it succeeds and
spawns ffplay. -/
theorem player_selection_claim_false :
    (playFile envFfplayOnly "clip.wav" playerIdle).2 = none ∧
    ((playFile envFfplayOnly "clip.wav" playerIdle).1).currentCmd
        = some (PlayerCmd.ffplayCmd "clip.wav") ∧
    ((playFile envFfplayOnly "clip.wav" playerIdle).1).IsPlaying = true :=
  ⟨rfl, rfl, rfl⟩

/-- C7 amended: the WAV chain is aplay, then paplay, then ffplay, failing
with the no-player error only when all three are absent; the MP3 chain is
mpg123, then ffplay, then, only when paplay is present, the ffmpeg
transcode of the file to a temporary WAV played through the WAV chain
(failing when ffmpeg is absent), and the no-MP3-player error only when
mpg123, ffplay and paplay are all absent. -/
theorem player_selection_chain (env : PlayerEnv) (f : String) (p : Player)
    (hIdle : p.isPlaying = false) (hFile : env.fileExists f = true) :
    (env.aplay = true →
      playFile env f p
        = ({ isPlaying := true, currentCmd := some (PlayerCmd.aplayCmd f) }, none)) ∧
    (env.aplay = false → env.paplay = true →
      playFile env f p
        = ({ isPlaying := true, currentCmd := some (PlayerCmd.paplayCmd f) }, none)) ∧
    (env.aplay = false → env.paplay = false → env.ffplay = true →
      playFile env f p
        = ({ isPlaying := true, currentCmd := some (PlayerCmd.ffplayCmd f) }, none)) ∧
    (env.aplay = false → env.paplay = false → env.ffplay = false →
      playFile env f p
        = (p, some "no suitable audio player found (tried: aplay, paplay, ffplay)")) ∧
    (env.mpg123 = true →
      playMP3File env f p
        = ({ isPlaying := true, currentCmd := some (PlayerCmd.mpg123Cmd f) }, none)) ∧
    (env.mpg123 = false → env.ffplay = true →
      playMP3File env f p
        = ({ isPlaying := true, currentCmd := some (PlayerCmd.ffplayCmd f) }, none)) ∧
    (env.mpg123 = false → env.ffplay = false → env.paplay = true → env.ffmpeg = false →
      playMP3File env f p = (p, some "ffmpeg not found, cannot convert MP3")) ∧
    (env.mpg123 = false → env.ffplay = false → env.paplay = true → env.ffmpeg = true →
      env.convertOk = true →
      playMP3File env f p
        = (if env.aplay then
            ({ isPlaying := true, currentCmd := some (PlayerCmd.aplayCmd (tempWavName f)) }, none)
          else
            ({ isPlaying := true, currentCmd := some (PlayerCmd.paplayCmd (tempWavName f)) }, none))) ∧
    (env.mpg123 = false → env.ffplay = false → env.paplay = false →
      playMP3File env f p
        = (p, some "no suitable MP3 player found (tried: mpg123, ffplay, paplay+ffmpeg)")) := by
  obtain ⟨a, pp, m, fp, fm, cv, fe⟩ := env
  simp only at hFile
  cases a <;> cases pp <;> cases m <;> cases fp <;> cases fm <;> cases cv <;>
    simp_all [playFile, playMP3File, playMP3WithFFmpeg]

theorem player_selection_chain_witness :
    playFile envAllTools "clip.wav" playerIdle
      = ({ isPlaying := true, currentCmd := some (PlayerCmd.aplayCmd "clip.wav") }, none) :=
  (player_selection_chain envAllTools "clip.wav" playerIdle rfl rfl).1 rfl

/-- C3: after every append of a successfully generated response the
conversation log holds at most the configured maximum number of entries;
the kept entries are the newest suffix of the appended log (FIFO eviction
of the oldest); and in the concrete scenario of a log bounded to 2 holding
two entries, a third append leaves exactly the two newest entries. -/
theorem conversation_log_bounded (maxHistory now : Nat) (input response : String)
    (st : AppState) :
    (processTextInput maxHistory (some response) now input st).1.conversationLog.length
        ≤ maxHistory ∧
    (processTextInput maxHistory (some response) now input st).1.conversationLog
        = (st.conversationLog ++ [mkEntry now input response st]).drop
            (st.conversationLog.length + 1 - maxHistory) ∧
    (processTextInput 2 (some "r3") 3 "u3" stTwo).1.conversationLog
        = [entryB, mkEntry 3 "u3" "r3" stTwo] := by
  refine ⟨?_, ?_, rfl⟩
  · simp only [processTextInput, appendBounded]
    split_ifs with h <;> simp_all [List.length_drop] <;> omega
  · simp only [processTextInput, appendBounded]
    split_ifs with h <;> simp_all

/-- C4: for every text turn whose generation succeeds, exactly one
ConversationEntry is appended to the log, in the text-processing step that
runs before any speech synthesis; and neither the synthesis step nor the
playback step touches the conversation log, so the final state of the
whole command still carries the appended entry whatever the synthesis or
playback outcome. -/
theorem entry_preserved_through_synthesis (maxHistory now : Nat) (input response : String)
    (ttsOk : Bool) (env : PlayerEnv) (st : AppState) (p : Player) :
    (processTextCmd maxHistory true (some response) ttsOk env now input st p).1.conversationLog
        = appendBounded maxHistory st.conversationLog (mkEntry now input response st) ∧
    (∀ (ok : Bool) (t : String) (st1 : AppState),
        ((generateVoiceResponse ok now t st1).1).conversationLog = st1.conversationLog) ∧
    (∀ (f : String) (st1 : AppState) (p1 : Player),
        ((appPlayAudio env f st1 p1).1).conversationLog = st1.conversationLog) := by
  have hgen : ∀ (ok : Bool) (t : String) (st1 : AppState),
      ((generateVoiceResponse ok now t st1).1).conversationLog = st1.conversationLog := by
    intro ok t st1; cases ok <;> rfl
  have hplay : ∀ (f : String) (st1 : AppState) (p1 : Player),
      ((appPlayAudio env f st1 p1).1).conversationLog = st1.conversationLog := by
    intro f st1 p1
    unfold appPlayAudio
    split_ifs <;> first | rfl | (split <;> rfl)
  refine ⟨?_, hgen, hplay⟩
  simp only [processTextCmd, processTextInput]
  norm_num
  split_ifs with hmode
  · cases ttsOk
    · rfl
    · simp only [generateVoiceResponse, if_true]
      rw [hplay]
  · rfl

/-- C10: for every history, the generation request context is the last at
most 10 entries (a hardcoded cap), each expanded in order into a user
message holding the entry input followed by an assistant message holding
the entry response, so the context has exactly 2 * min(length, 10)
messages, and an empty history contributes no messages. -/
theorem generate_response_context (history : List ConversationEntry) :
    (generateResponseContext history).length = 2 * min history.length 10 ∧
    generateResponseContext history
        = (history.drop (history.length - 10)).flatMap
            (fun e => [{ role := "user", content := e.userInput },
                       { role := "assistant", content := e.aiResponse }]) ∧
    generateResponseContext ([] : List ConversationEntry) = [] := by
  have h2 : generateResponseContext history
      = (history.drop (history.length - 10)).flatMap
          (fun e => [({ role := "user", content := e.userInput } : Message),
                     { role := "assistant", content := e.aiResponse }]) := by
    unfold generateResponseContext getConversationContext
    split_ifs with h0 h1
    · have : history = [] := List.eq_nil_of_length_eq_zero h0
      simp [this]
    · rfl
    · have : history.length - 10 = 0 := by omega
      rw [this]
  refine ⟨?_, h2, by simp [generateResponseContext, getConversationContext]⟩
  rw [h2, length_pairExpand, List.length_drop]
  omega

end Jork
